import Mathlib

/-
  Verification of the server/db.ts module: database bootstrap (pool creation,
  ping) and OIDC auth bootstrap (AUTH_ENABLED computation, setupAuth wiring,
  the isAuthenticated request guard with its token-refresh path).

  The embedding is shallow: each TypeScript function becomes an executable
  Lean definition over explicit state.  JavaScript truthiness of optional
  values is modelled explicitly (an absent value, the empty string and the
  number 0 are falsy).  Network effects (OIDC discovery, the refresh-token
  grant, pool connect, query) are modelled as explicit outcome parameters,
  and the guard records how many times each network operation was invoked.
-/

namespace ServerDb

/-- Truthiness of an optional string, as JavaScript sees an env var or token:
falsy when absent or empty. -/
def truthyStr : Option String → Bool
  | none => false
  | some s => decide (s ≠ "")

/-- Truthiness of an optional integer, as JavaScript sees a numeric field:
falsy when absent or equal to 0. -/
def truthyInt : Option Int → Bool
  | none => false
  | some v => decide (v ≠ 0)

/-! ### Database bootstrap (lines 6-20 of server/db.ts) -/

/-- The pg pool, reduced to the data the module derives from the
environment. -/
structure Pool where
  connectionString : String
  deriving Repr, DecidableEq

/-- Module initialisation of the database part: reads DATABASE_URL, throws
when it is falsy, otherwise constructs the pool. -/
def moduleInit (databaseUrl : Option String) : Except String Pool :=
  if truthyStr databaseUrl then Except.ok { connectionString := databaseUrl.getD "" }
  else Except.error "DATABASE_URL is not set"

/-- Events observable on a pooled client during pingDb. -/
inductive DbEvent
  | acquire
  | query
  | release
  deriving Repr, DecidableEq

/-- The pingDb function: acquire a client, run a trivial query inside
try-finally so the client is released on either outcome, return true on
success and propagate the query error after the release.  The connect and
query outcomes are parameters; the result pairs the event trace with the
returned or thrown value. -/
def pingDb (connect : Except String Unit) (queryResult : Except String Unit) :
    List DbEvent × Except String Bool :=
  match connect with
  | Except.error e => ([], Except.error e)
  | Except.ok _ =>
    match queryResult with
    | Except.ok _ => ([DbEvent.acquire, DbEvent.query, DbEvent.release], Except.ok true)
    | Except.error e => ([DbEvent.acquire, DbEvent.query, DbEvent.release], Except.error e)

/-! ### Auth configuration (lines 36-46 of server/db.ts) -/

/-- The environment variables the auth bootstrap reads. -/
structure Env where
  allowed_origins : Option String
  replit_domains : Option String
  repl_id : Option String
  deriving Repr, DecidableEq

/-- The raw domain string: ALLOWED_ORIGINS, falling back (nullish
coalescing) to REPLIT_DOMAINS, falling back to the empty string. -/
def rawDomains (env : Env) : String :=
  (env.allowed_origins.orElse (fun _ => env.replit_domains)).getD ""

/-- Whitespace trimming of a string, as the JavaScript trim method:
drop whitespace from both ends. -/
def jsTrim (s : String) : String :=
  String.mk (((s.toList.dropWhile Char.isWhitespace).reverse.dropWhile
    Char.isWhitespace).reverse)

/-- Character-level worker for splitting on commas. -/
def jsSplitCommaAux : List Char → List Char → List String
  | [], acc => [String.mk acc.reverse]
  | c :: cs, acc =>
    if c = ',' then String.mk acc.reverse :: jsSplitCommaAux cs []
    else jsSplitCommaAux cs (c :: acc)

/-- Splitting a string on commas, as the JavaScript split method with a
comma separator: the empty string yields a single empty part. -/
def jsSplitComma (s : String) : List String :=
  jsSplitCommaAux s.toList []

/-- The allowed domain list: split the raw string on commas, trim each
part, drop the falsy (empty) parts. -/
def allowedDomains (env : Env) : List String :=
  ((jsSplitComma (rawDomains env)).map jsTrim).filter (fun s => s != "")

/-- AUTH_ENABLED: at least one allowed domain and a truthy REPL_ID. -/
def AUTH_ENABLED (env : Env) : Bool :=
  decide ((allowedDomains env).length > 0) && truthyStr env.repl_id

/-! ### Session data and updateUserSession (lines 91-99) -/

/-- The OIDC claims, reduced to the field the module reads. -/
structure Claims where
  exp : Option Int
  deriving Repr, DecidableEq

/-- A token endpoint response: the claims of the id token (possibly absent),
the access token, and an optional refresh token. -/
structure TokenResponse where
  claims : Option Claims
  access_token : String
  refresh_token : Option String
  deriving Repr, DecidableEq

/-- The request-scoped user object the guard reads and mutates. -/
structure User where
  claims : Option Claims
  access_token : Option String
  refresh_token : Option String
  expires_at : Option Int
  deriving Repr, DecidableEq

set_option linter.unusedVariables false in
/-- updateUserSession: overwrite the user object field by field from the
token response; expires_at becomes the exp field of the new claims (absent
when the claims or their exp are absent).  Every field of the old user is
replaced. -/
def updateUserSession (user : User) (tokens : TokenResponse) : User :=
  let newClaims := tokens.claims
  { claims := newClaims
    access_token := some tokens.access_token
    refresh_token := tokens.refresh_token
    expires_at := newClaims.bind Claims.exp }

/-! ### setupAuth (lines 112-186): the auth-disabled branch -/

/-- Outcome of setupAuth: when auth is disabled it wires three fixed
endpoints (login, callback, logout status codes) and makes no OIDC call;
when enabled it proceeds to the OIDC wiring. -/
inductive SetupOutcome
  | disabledRoutes (loginStatus callbackStatus logoutStatus : Nat) (oidcCalls : Nat)
  | enabledWiring
  deriving Repr, DecidableEq

/-- setupAuth: with auth disabled, register the graceful endpoints (503 for
login and callback, 200 for logout) and return before any OIDC discovery;
otherwise continue to the OIDC wiring. -/
def setupAuth (authEnabled : Bool) : SetupOutcome :=
  if !authEnabled then SetupOutcome.disabledRoutes 503 503 200 0
  else SetupOutcome.enabledWiring

/-! ### The isAuthenticated guard (lines 189-217) -/

/-- What the guard finally does with the request. -/
inductive GuardOutcome
  | next
  | status (code : Nat) (message : String)
  deriving Repr, DecidableEq

instance instDecidableEqExcept {ε α : Type} [DecidableEq ε] [DecidableEq α] :
    DecidableEq (Except ε α)
  | Except.error a, Except.error b =>
    if h : a = b then Decidable.isTrue (by rw [h])
    else Decidable.isFalse (by simp [h])
  | Except.error _, Except.ok _ => Decidable.isFalse (by simp)
  | Except.ok _, Except.error _ => Decidable.isFalse (by simp)
  | Except.ok a, Except.ok b =>
    if h : a = b then Decidable.isTrue (by rw [h])
    else Decidable.isFalse (by simp [h])

/-- How the surrounding world answers the guard during one request: the
outcome of getOidcConfig and the outcome of the refresh-token grant. -/
structure OidcEnv where
  discovery : Except String Unit
  refreshTokenGrant : Except String TokenResponse
  deriving Repr, DecidableEq

/-- Result of one run of the guard: the terminal action, the user object
after any in-place mutation, and how many discovery and refresh-grant calls
were made during the request. -/
structure GuardResult where
  outcome : GuardOutcome
  user : User
  discoveryCalls : Nat
  refreshCalls : Nat
  deriving Repr, DecidableEq

/-- The isAuthenticated guard.  Mirrors the source: auth disabled passes
through; no authenticated principal or falsy expires_at gives 401; a
still-valid expiry passes through; a falsy refresh token gives 401;
otherwise one try block runs discovery then the refresh grant, passing
through with the updated user on success and giving 401 on any thrown
error. -/
def isAuthenticated (authEnabled : Bool) (isAuth : Bool) (user : User)
    (now : Int) (oidc : OidcEnv) : GuardResult :=
  if !authEnabled then
    { outcome := GuardOutcome.next, user := user, discoveryCalls := 0, refreshCalls := 0 }
  else if !isAuth || !truthyInt user.expires_at then
    { outcome := GuardOutcome.status 401 "Unauthorized", user := user
      discoveryCalls := 0, refreshCalls := 0 }
  else if now ≤ user.expires_at.getD 0 then
    { outcome := GuardOutcome.next, user := user, discoveryCalls := 0, refreshCalls := 0 }
  else if !truthyStr user.refresh_token then
    { outcome := GuardOutcome.status 401 "Unauthorized", user := user
      discoveryCalls := 0, refreshCalls := 0 }
  else
    match oidc.discovery with
    | Except.error _ =>
        { outcome := GuardOutcome.status 401 "Unauthorized", user := user
          discoveryCalls := 1, refreshCalls := 0 }
    | Except.ok _ =>
      match oidc.refreshTokenGrant with
      | Except.error _ =>
          { outcome := GuardOutcome.status 401 "Unauthorized", user := user
            discoveryCalls := 1, refreshCalls := 1 }
      | Except.ok tokens =>
          { outcome := GuardOutcome.next, user := updateUserSession user tokens
            discoveryCalls := 1, refreshCalls := 1 }

end ServerDb

namespace ServerDb

/-! ### Shared concrete sample values used by witnesses -/

/-- A request-scoped user whose expiry (50) lies in the past of the sample
clock (100) and who carries a refresh token. -/
def expiredUser : User :=
  { claims := some { exp := some 50 }, access_token := some "a0"
    refresh_token := some "r0", expires_at := some 50 }

/-- A token response whose claims carry a fresh expiry. -/
def freshTokens : TokenResponse :=
  { claims := some { exp := some 9999 }, access_token := "a1", refresh_token := some "r1" }

/-- An OIDC world where discovery and the refresh grant both succeed. -/
def okOidc : OidcEnv :=
  { discovery := Except.ok (), refreshTokenGrant := Except.ok freshTokens }

/-! ### Claim theorems -/

/-- C1: with auth enabled, whenever the session expiry is in the past the
guard only ever calls next after a successful discovery plus refresh-token
exchange in the same request; on every other path it answers 401
Unauthorized. -/
theorem c1_expired_requires_refresh (isAuth : Bool) (user : User) (now e : Int)
    (oidc : OidcEnv) (hexp : user.expires_at = some e) (hpast : e < now) :
    ((isAuthenticated true isAuth user now oidc).outcome = GuardOutcome.next →
      oidc.discovery = Except.ok () ∧ ∃ t, oidc.refreshTokenGrant = Except.ok t) ∧
    (¬ (oidc.discovery = Except.ok () ∧ ∃ t, oidc.refreshTokenGrant = Except.ok t) →
      (isAuthenticated true isAuth user now oidc).outcome =
        GuardOutcome.status 401 "Unauthorized") := by
  obtain ⟨d, g⟩ := oidc
  cases isAuth <;> cases d <;> cases g <;>
    by_cases he : e = 0 <;>
      rcases hrt : user.refresh_token with _ | rt <;>
        first
          | (simp_all [isAuthenticated, truthyInt, truthyStr,
              show ¬ (now ≤ e) from by omega]; done)
          | (by_cases hrte : rt = "" <;>
              simp_all [isAuthenticated, truthyInt, truthyStr,
                show ¬ (now ≤ e) from by omega])

theorem c1_expired_requires_refresh_witness :
    expiredUser.expires_at = some 50 ∧ (50 : Int) < 100 ∧
    (((isAuthenticated true true expiredUser 100 okOidc).outcome = GuardOutcome.next →
      okOidc.discovery = Except.ok () ∧ ∃ t, okOidc.refreshTokenGrant = Except.ok t) ∧
    (¬ (okOidc.discovery = Except.ok () ∧ ∃ t, okOidc.refreshTokenGrant = Except.ok t) →
      (isAuthenticated true true expiredUser 100 okOidc).outcome =
        GuardOutcome.status 401 "Unauthorized")) :=
  ⟨rfl, by decide, c1_expired_requires_refresh true expiredUser 100 50 okOidc rfl (by decide)⟩

/-- C2: with auth disabled the guard passes every request through untouched
and makes no OIDC call, and setupAuth wires login and callback to 503 and
logout to 200 without any OIDC call. -/
theorem c2_disabled_fail_open (isAuth : Bool) (user : User) (now : Int) (oidc : OidcEnv) :
    isAuthenticated false isAuth user now oidc =
      { outcome := GuardOutcome.next, user := user, discoveryCalls := 0, refreshCalls := 0 } ∧
    setupAuth false = SetupOutcome.disabledRoutes 503 503 200 0 := by
  exact ⟨by simp [isAuthenticated], rfl⟩

/-- C3 as stated is false: the code does not make the refreshed expiry a
future value.  Here a successful refresh returns claims with exp equal to 5,
the guard still calls next, and the stored expiry 5 is not in the future of
the clock 100. -/
theorem c3_counterexample :
    isAuthenticated true true
      { claims := some { exp := some 50 }, access_token := some "b0"
        refresh_token := some "s0", expires_at := some 50 }
      100
      { discovery := Except.ok ()
        refreshTokenGrant := Except.ok
          { claims := some { exp := some 5 }, access_token := "b1"
            refresh_token := some "s1" } } =
      { outcome := GuardOutcome.next
        user := { claims := some { exp := some 5 }, access_token := some "b1"
                  refresh_token := some "s1", expires_at := some 5 }
        discoveryCalls := 1, refreshCalls := 1 } ∧
    ¬ ((100 : Int) < 5) := by
  decide

/-- C3 amended: for a past truthy expiry with a truthy refresh token the
guard makes at most one refresh-grant call; on success it overwrites the
user via updateUserSession and calls next (with no guarantee that the new
expiry is future); on any failure of discovery or of the grant it answers
401 with no retry. -/
theorem c3_single_refresh_attempt (user : User) (now e : Int) (oidc : OidcEnv) (rt : String)
    (hexp : user.expires_at = some e) (hne : e ≠ 0) (hpast : e < now)
    (hrt : user.refresh_token = some rt) (hrtne : rt ≠ "") :
    (isAuthenticated true true user now oidc).refreshCalls ≤ 1 ∧
    (∀ tokens, oidc.discovery = Except.ok () → oidc.refreshTokenGrant = Except.ok tokens →
      isAuthenticated true true user now oidc =
        { outcome := GuardOutcome.next, user := updateUserSession user tokens
          discoveryCalls := 1, refreshCalls := 1 }) ∧
    (∀ err, oidc.refreshTokenGrant = Except.error err →
      (isAuthenticated true true user now oidc).outcome =
        GuardOutcome.status 401 "Unauthorized") ∧
    (∀ err, oidc.discovery = Except.error err →
      (isAuthenticated true true user now oidc).outcome =
        GuardOutcome.status 401 "Unauthorized") := by
  obtain ⟨d, g⟩ := oidc
  cases d <;> cases g <;>
    simp_all [isAuthenticated, truthyInt, truthyStr,
      show ¬ (now ≤ e) from by omega]

theorem c3_single_refresh_attempt_witness :
    expiredUser.expires_at = some 50 ∧ (50 : Int) ≠ 0 ∧ (50 : Int) < 100 ∧
    expiredUser.refresh_token = some "r0" ∧ "r0" ≠ "" ∧
    isAuthenticated true true expiredUser 100 okOidc =
      { outcome := GuardOutcome.next, user := updateUserSession expiredUser freshTokens
        discoveryCalls := 1, refreshCalls := 1 } :=
  ⟨rfl, by decide, by decide, rfl, by decide,
    (c3_single_refresh_attempt expiredUser 100 50 okOidc "r0" rfl (by decide) (by decide)
      rfl (by decide)).2.1 freshTokens rfl rfl⟩

/-- C4: a still-valid session (current time at most the truthy expiry, at a
positive clock) passes through with no discovery and no refresh call. -/
theorem c4_valid_passes_through (user : User) (now e : Int) (oidc : OidcEnv)
    (hnow : 0 < now) (hexp : user.expires_at = some e) (hle : now ≤ e) :
    isAuthenticated true true user now oidc =
      { outcome := GuardOutcome.next, user := user
        discoveryCalls := 0, refreshCalls := 0 } := by
  have he : e ≠ 0 := by omega
  simp [isAuthenticated, hexp, truthyInt, he, hle]

theorem c4_valid_passes_through_witness :
    (0 : Int) < 100 ∧
    (User.mk (some { exp := some 200 }) (some "a0") (some "r0")
      (some 200)).expires_at = some 200 ∧
    (100 : Int) ≤ 200 ∧
    isAuthenticated true true
      { claims := some { exp := some 200 }, access_token := some "a0"
        refresh_token := some "r0", expires_at := some 200 } 100 okOidc =
      { outcome := GuardOutcome.next
        user := { claims := some { exp := some 200 }, access_token := some "a0"
                  refresh_token := some "r0", expires_at := some 200 }
        discoveryCalls := 0, refreshCalls := 0 } :=
  ⟨by decide, rfl, by decide,
    c4_valid_passes_through _ 100 200 okOidc (by decide) rfl (by decide)⟩

/-- C5: a past expiry with an absent refresh token yields 401 with no
discovery call and no refresh call. -/
theorem c5_no_refresh_token_401 (user : User) (now e : Int) (oidc : OidcEnv)
    (hexp : user.expires_at = some e) (hpast : e < now)
    (hrt : user.refresh_token = none) :
    isAuthenticated true true user now oidc =
      { outcome := GuardOutcome.status 401 "Unauthorized", user := user
        discoveryCalls := 0, refreshCalls := 0 } := by
  have hnle : ¬ (now ≤ e) := by omega
  by_cases he : e = 0 <;> simp_all [isAuthenticated, truthyInt, truthyStr]

theorem c5_no_refresh_token_401_witness :
    (50 : Int) < 100 ∧
    isAuthenticated true true
      { claims := some { exp := some 50 }, access_token := some "a0"
        refresh_token := none, expires_at := some 50 } 100 okOidc =
      { outcome := GuardOutcome.status 401 "Unauthorized"
        user := { claims := some { exp := some 50 }, access_token := some "a0"
                  refresh_token := none, expires_at := some 50 }
        discoveryCalls := 0, refreshCalls := 0 } :=
  ⟨by decide, c5_no_refresh_token_401 _ 100 50 okOidc rfl (by decide) rfl⟩

/-- C6: AUTH_ENABLED holds exactly when the parsed allowed-domain list is
non-empty and REPL_ID is set to a non-empty value. -/
theorem c6_auth_enabled_iff (env : Env) :
    AUTH_ENABLED env = true ↔
      (allowedDomains env ≠ [] ∧ ∃ s, env.repl_id = some s ∧ s ≠ "") := by
  rcases env with ⟨ao, rd, ri⟩
  rcases ri with _ | s <;>
    simp [AUTH_ENABLED, truthyStr, List.length_pos]

theorem c6_auth_enabled_iff_witness :
    AUTH_ENABLED { allowed_origins := some "a.example.com", replit_domains := none
                   repl_id := some "client-1" } = true :=
  (c6_auth_enabled_iff _).mpr ⟨by decide, "client-1", rfl, by decide⟩

/-- C7 as stated is false: DATABASE_URL set to the empty string is present,
yet module initialisation throws because the empty string is falsy. -/
theorem c7_counterexample :
    (some "" : Option String).isSome = true ∧
    moduleInit (some "") = Except.error "DATABASE_URL is not set" := by
  decide

/-- C7 amended: when DATABASE_URL is absent or empty, module initialisation
throws before any pool is constructed; when it is present and non-empty, it
does not throw and constructs the pool from the connection string. -/
theorem c7_database_url_check (databaseUrl : Option String) :
    (truthyStr databaseUrl = false →
      moduleInit databaseUrl = Except.error "DATABASE_URL is not set") ∧
    (∀ s, databaseUrl = some s → s ≠ "" →
      moduleInit databaseUrl = Except.ok { connectionString := s }) := by
  constructor
  · intro h
    simp [moduleInit, h]
  · rintro s rfl hs
    simp [moduleInit, truthyStr, hs]

theorem c7_database_url_check_witness :
    moduleInit none = Except.error "DATABASE_URL is not set" ∧
    moduleInit (some "postgres://h/db") =
      Except.ok { connectionString := "postgres://h/db" } :=
  ⟨(c7_database_url_check none).1 (by decide),
   (c7_database_url_check (some "postgres://h/db")).2 "postgres://h/db" rfl (by decide)⟩

/-- C8: every pingDb run that acquires a client releases it exactly once,
after the query and on either outcome; a successful query returns true and
a failing query propagates its error to the caller. -/
theorem c8_ping_release_once (queryResult : Except String Unit) :
    (pingDb (Except.ok ()) queryResult).1 =
      [DbEvent.acquire, DbEvent.query, DbEvent.release] ∧
    ((pingDb (Except.ok ()) queryResult).1.count DbEvent.release) = 1 ∧
    (queryResult = Except.ok () → (pingDb (Except.ok ()) queryResult).2 = Except.ok true) ∧
    (∀ e, queryResult = Except.error e →
      (pingDb (Except.ok ()) queryResult).2 = Except.error e) := by
  rcases queryResult with e | u <;> simp [pingDb]

theorem c8_ping_release_once_witness :
    (pingDb (Except.ok ()) (Except.ok ())).2 = Except.ok true ∧
    (pingDb (Except.ok ()) (Except.error "boom")).2 = Except.error "boom" :=
  ⟨(c8_ping_release_once (Except.ok ())).2.2.1 rfl,
   (c8_ping_release_once (Except.error "boom")).2.2.2 "boom" rfl⟩

/-- C9: a successful refresh replaces all four user fields with values from
the token response: the claims, the access token, the refresh token (absent
when the response carries none, discarding the old token) and expires_at as
the possibly absent exp of the new claims; the guard still calls next. -/
theorem c9_refresh_overwrites (user : User) (now e : Int) (tokens : TokenResponse)
    (rt : String) (hexp : user.expires_at = some e) (hne : e ≠ 0) (hpast : e < now)
    (hrt : user.refresh_token = some rt) (hrtne : rt ≠ "") :
    isAuthenticated true true user now
        { discovery := Except.ok (), refreshTokenGrant := Except.ok tokens } =
      { outcome := GuardOutcome.next
        user := { claims := tokens.claims
                  access_token := some tokens.access_token
                  refresh_token := tokens.refresh_token
                  expires_at := tokens.claims.bind Claims.exp }
        discoveryCalls := 1, refreshCalls := 1 } := by
  simp_all [isAuthenticated, truthyInt, truthyStr, updateUserSession,
    show ¬ (now ≤ e) from by omega]

theorem c9_refresh_overwrites_witness :
    expiredUser.expires_at = some 50 ∧ (50 : Int) ≠ 0 ∧ (50 : Int) < 100 ∧
    expiredUser.refresh_token = some "r0" ∧ "r0" ≠ "" ∧
    isAuthenticated true true expiredUser 100
        { discovery := Except.ok ()
          refreshTokenGrant := Except.ok
            { claims := some { exp := none }, access_token := "a2", refresh_token := none } } =
      { outcome := GuardOutcome.next
        user := { claims := some { exp := none }, access_token := some "a2"
                  refresh_token := none, expires_at := none }
        discoveryCalls := 1, refreshCalls := 1 } :=
  ⟨rfl, by decide, by decide, rfl, by decide,
    c9_refresh_overwrites expiredUser 100 50
      { claims := some { exp := none }, access_token := "a2", refresh_token := none }
      "r0" rfl (by decide) (by decide) rfl (by decide)⟩

/-- C10: with auth enabled and an authenticated principal, a falsy
expires_at (absent, or the epoch value 0) makes the guard answer 401 with
no discovery and no refresh call, whatever refresh token is stored. -/
theorem c10_falsy_expiry_401 (user : User) (now : Int) (oidc : OidcEnv)
    (hfalsy : user.expires_at = none ∨ user.expires_at = some 0) :
    isAuthenticated true true user now oidc =
      { outcome := GuardOutcome.status 401 "Unauthorized", user := user
        discoveryCalls := 0, refreshCalls := 0 } := by
  rcases hfalsy with h | h <;> simp [isAuthenticated, h, truthyInt]

theorem c10_falsy_expiry_401_witness :
    ((some (0 : Int) = none ∨ some (0 : Int) = some 0) ∧
    isAuthenticated true true
      { claims := some { exp := some 0 }, access_token := some "a0"
        refresh_token := some "r0", expires_at := some 0 } 100 okOidc =
      { outcome := GuardOutcome.status 401 "Unauthorized"
        user := { claims := some { exp := some 0 }, access_token := some "a0"
                  refresh_token := some "r0", expires_at := some 0 }
        discoveryCalls := 0, refreshCalls := 0 }) ∧
    truthyStr (some "r0") = true :=
  ⟨⟨Or.inr rfl, c10_falsy_expiry_401 _ 100 okOidc (Or.inr rfl)⟩, by decide⟩

end ServerDb
